import Mathlib

/-!
Shallow embedding of the Instagram scraper core (src/scraper.py, src/schema.py).
Network and browser effects are modelled as explicit environments supplying the
responses the code would receive; each definition translates the corresponding
Python function directly. Python dictionary access with .get is modelled by
Option fields together with Option.getD, and Python truthiness-based fallbacks
by the helpers strOr and intOr below.
-/

/-- Comment record mirroring the pydantic model schema.InstagramComment
(schema.py lines 74-81) field for field; timestamp is declared str there. -/
structure InstagramComment where
  comment_id : String
  text : String
  author_username : String
  author_verified : Bool := false
  timestamp : String
  likes : Int := 0
  replies_count : Int := 0
deriving Repr, DecidableEq

/-- Post record mirroring the pydantic model schema.InstagramPost (schema.py
lines 85-102) field for field; the location dict is modelled as an optional
association list. Note the model requires a field named type and declares
timestamp as str, and it has no post_url, media_type, is_video or
owner_username field. -/
structure InstagramPost where
  shortcode : String
  type : String
  caption : String := ""
  hashtags : List String := []
  mentions : List String := []
  tagged_users : List String := []
  timestamp : String
  likes : Int
  comments_count : Int
  video_views : Option Int := none
  shares : Int := 0
  media_urls : List String := []
  thumbnail_url : Option String := none
  location : Option (List (String × String)) := none
  is_sponsored : Bool := false
  comments : List InstagramComment := []
deriving Repr, DecidableEq

/-- Profile record as constructed in _scrape_profile (scraper.py lines 147-161). -/
structure InstagramProfile where
  username : String
  full_name : String
  biography : String
  external_url : Option String
  follower_count : Int
  following_count : Int
  post_count : Int
  is_verified : Bool
  is_private : Bool
  is_business : Bool
  category : Option String
  profile_pic_url : String
  profile_pic_url_hd : Option String
deriving Repr, DecidableEq

/-- Child node of a carousel: the keys read from each edge_sidecar_to_children
edge node (scraper.py lines 365-367). -/
structure RawChildNode where
  display_url : Option String
  video_url : Option String
deriving Repr, DecidableEq

/-- Raw GraphQL post node: exactly the dictionary entries
_parse_post_from_graphql reads, with none for an absent key. caption_texts is
the list of edge_media_to_caption edge texts (each already defaulted to the
empty string as the code does per edge). -/
structure RawPostNode where
  shortcode : Option String
  typename : Option String
  caption_texts : List String
  sidecar_children : List RawChildNode
  display_url : Option String
  video_url : Option String
  preview_like_count : Option Int
  liked_by_count : Option Int
  comment_count : Option Int
  taken_at_timestamp : Option Int
  is_video : Option Bool
  video_view_count : Option Int
  owner_username : Option String
deriving Repr, DecidableEq

/-- Python truthiness fallback on strings: models the expression
a.get(k1) or a.get(k2, fallback-empty) where a missing or empty first value
falls through to the second and a missing second yields the empty string. -/
def strOr (a b : Option String) : String :=
  match a with
  | some s => if s = "" then b.getD "" else s
  | none => b.getD ""

/-- Python truthiness fallback on the two like-count locations (scraper.py
lines 376-377): a missing or zero first count falls through to the second,
whose absence yields 0. -/
def intOr (a b : Option Int) : Int :=
  match a with
  | some n => if n = 0 then b.getD 0 else n
  | none => b.getD 0

/-- The base URL constant set in the constructor (scraper.py line 45). -/
def base_url : String := "https://www.instagram.com"

/-- Keyword values computed for the InstagramPost(...) call at scraper.py
lines 381-393 — exactly the kwargs the site passes; the timestamp holds the
epoch integer handed to datetime.fromtimestamp. -/
structure PostCtorKwargs where
  shortcode : String
  post_url : String
  media_type : String
  media_urls : List String
  caption : String
  likes : Int
  comments_count : Int
  timestamp : Int
  is_video : Bool
  video_views : Int
  owner_username : String
deriving Repr, DecidableEq

/-- Field names of schema.InstagramPost that have no default (schema.py lines
87-95): pydantic requires each of them at construction. -/
def instagram_post_required_fields : List String :=
  ["shortcode", "type", "timestamp", "likes", "comments_count"]

/-- Keyword names passed at the construction site scraper.py lines 381-393. -/
def instagram_post_ctor_kwarg_names : List String :=
  ["shortcode", "post_url", "media_type", "media_urls", "caption", "likes",
    "comments_count", "timestamp", "is_video", "video_views", "owner_username"]

/-- Model of the pydantic constructor call InstagramPost(...) at scraper.py
line 381 validated against the schema.py model: the required schema field type
is not among the kwargs (post_url, media_type, is_video and owner_username are
not schema fields and are ignored by the model), and the timestamp field is
declared str while the call passes a datetime, which pydantic str validation
rejects. Validation therefore raises for every input; this call can never
produce an InstagramPost value. -/
def instagram_post_validate (_k : PostCtorKwargs) : Except String InstagramPost :=
  .error "ValidationError: field required: type; str type expected: timestamp"

/-- Kwargs assembly of _parse_post_from_graphql (scraper.py lines 343-393,
before validation): a node without a shortcode yields nothing; media type
comes from the __typename discriminator; media URLs come from the sidecar
children for a carousel and from the node itself otherwise; video_views is
gated on the separate is_video key. -/
def parse_post_kwargs (node : RawPostNode) (username : String) :
    Option PostCtorKwargs :=
  let shortcode := node.shortcode.getD ""
  if shortcode = "" then none
  else
    let caption := (node.caption_texts.head?).getD ""
    let typename := node.typename.getD ""
    let media_type :=
      if typename = "GraphVideo" then "video"
      else if typename = "GraphSidecar" then "carousel"
      else "image"
    let media_urls :=
      if media_type = "carousel" then
        node.sidecar_children.filterMap fun child =>
          let u := strOr child.display_url child.video_url
          if u = "" then none else some u
      else
        let u := strOr node.display_url node.video_url
        if u = "" then [] else [u]
    some {
      shortcode := shortcode
      post_url := base_url ++ "/p/" ++ shortcode ++ "/"
      media_type := media_type
      media_urls := media_urls
      caption := caption
      likes := intOr node.preview_like_count node.liked_by_count
      comments_count := node.comment_count.getD 0
      timestamp := node.taken_at_timestamp.getD 0
      is_video := node.is_video.getD false
      video_views := if node.is_video.getD false then node.video_view_count.getD 0 else 0
      owner_username := node.owner_username.getD username }

/-- Translation of InstagramScraper._parse_post_from_graphql (scraper.py lines
340-399): assemble the kwargs, then attempt the InstagramPost construction;
the ValidationError the constructor raises for every input is caught by the
handler at line 397, so the function returns None for every node. -/
def parse_post_from_graphql (node : RawPostNode) (username : String) :
    Option InstagramPost :=
  match parse_post_kwargs node username with
  | none => none
  | some k =>
    match instagram_post_validate k with
    | .error _ => none
    | .ok p => some p

/-- Raw GraphQL comment node: the dictionary entries
_parse_comment_from_graphql reads (scraper.py lines 698-726). -/
structure RawCommentNode where
  id : Option String
  text : Option String
  owner_username : Option String
  liked_by_count : Option Int
  created_at : Option Int
deriving Repr, DecidableEq

/-- Keyword values computed for the InstagramComment(...) call at scraper.py
lines 718-724; the timestamp holds the epoch integer handed to
datetime.fromtimestamp at line 716. -/
structure CommentCtorKwargs where
  comment_id : String
  text : String
  author_username : String
  likes : Int
  timestamp : Int
deriving Repr, DecidableEq

/-- Model of the pydantic constructor call InstagramComment(...) at scraper.py
line 718 validated against schema.py lines 74-81: every required field name is
supplied, but the timestamp field is declared str and the call passes a
datetime (modelled here by its epoch integer), which pydantic str validation
rejects. The constructor therefore raises for every comment node. -/
def instagram_comment_validate (_k : CommentCtorKwargs) :
    Except String InstagramComment :=
  .error "ValidationError: str type expected: timestamp"

/-- Translation of InstagramScraper._parse_comment_from_graphql (scraper.py
lines 698-730): a node without an id is dropped at line 703; otherwise the
kwargs are assembled and the InstagramComment construction is attempted; the
ValidationError it raises is caught at line 728, so the function returns None
for every node. -/
def parse_comment_from_graphql (node : RawCommentNode) : Option InstagramComment :=
  let comment_id := node.id.getD ""
  if comment_id = "" then none
  else
    match instagram_comment_validate {
        comment_id := comment_id
        text := node.text.getD ""
        author_username := node.owner_username.getD ""
        likes := node.liked_by_count.getD 0
        timestamp := node.created_at.getD 0 } with
    | .error _ => none
    | .ok c => some c

/-- Boolean test that the first character list starts the second one. -/
def lpre : List Char → List Char → Bool
  | [], _ => true
  | _ :: _, [] => false
  | a :: as, b :: bs => a == b && lpre as bs

/-- Character class of the capture group in the username regex: any character
other than a slash or a question mark. -/
def notSep (c : Char) : Bool := c != '/' && c != '?'

/-- The literal part of the regex pattern in _extract_username_from_url. -/
def instaLit : List Char := "instagram.com/".data

/-- Leftmost search for the pattern of _extract_username_from_url: the literal
instagram.com/ followed by a nonempty run of non-separator characters; returns
the captured run. A position where the literal matches but the group would be
empty is skipped, as re.search does. -/
def searchInstaUsername : List Char → Option String
  | [] => none
  | c :: rest =>
    if lpre instaLit (c :: rest) then
      let cap := ((c :: rest).drop instaLit.length).takeWhile notSep
      if cap.isEmpty then searchInstaUsername rest
      else some (String.mk cap)
    else searchInstaUsername rest

/-- Translation of InstagramScraper._extract_username_from_url (scraper.py
lines 94-99): the captured group on a match, the whole URL otherwise. -/
def extract_username_from_url (url : String) : String :=
  match searchInstaUsername url.data with
  | some u => u
  | none => url

/-- Username resolution at the top of InstagramScraper.scrape (scraper.py lines
61-65): keep a truthy explicit username; otherwise, when a nonempty URL list is
present, extract from the first URL. -/
def resolve_username (username : Option String) (urls : Option (List String)) :
    Option String :=
  match urls with
  | some (u :: _) =>
    if username = none ∨ username = some "" then some (extract_username_from_url u)
    else username
  | _ => username

/-- First-page response body of the structured posts fetch as read by
_scrape_posts_graphql (scraper.py lines 234-263): whether a user object could
be extracted, the timeline edges, the page_info block, and the user id used
for pagination. -/
structure GqlFirstResp where
  userFound : Bool
  edges : List RawPostNode
  hasNext : Bool
  endCursor : String
  userId : String
deriving Repr, DecidableEq

/-- Paginated response body: the code reads only the edge list, but the
page_info block is kept so that an environment can indicate further pages. -/
structure GqlPage where
  edges : List RawPostNode
  hasNext : Bool
  endCursor : String
deriving Repr, DecidableEq

/-- Network environment of the structured posts path: the outcome of the
first-page fetch, and for every cursor / first-argument pair the outcome of a
paginated fetch. Except.error models the request raising, a non-200 status, or
a JSON decode failure, all of which raise in the source. -/
structure GqlEnv where
  first : Except String GqlFirstResp
  paged : String → Nat → Except String GqlPage

/-- Model of InstagramScraper._fetch_paginated_posts (scraper.py lines
284-338). The source text of this method is unparseable as written: the try at
line 318 is indented under no open block, a module-fatal IndentationError.
This definition embeds the minimal repair that re-indents the try to statement
level, matching the operation the spec describes; claims decided by this
method are settled as code bugs. Behavior of the repaired text: one GET with
variables first = min(remaining, 50) and after = cursor; every edge of the
response is parsed and appended with no client-side truncation; a failing
request is caught and yields the empty list. The issued request is also
returned for observation. -/
def fetch_paginated_posts (env : GqlEnv) (cursor : String) (max_posts : Nat) :
    List InstagramPost × (String × Nat) :=
  let firstArg := min max_posts 50
  match env.paged cursor firstArg with
  | .error _ => ([], (cursor, firstArg))
  | .ok page =>
    (page.edges.filterMap (fun n => parse_post_from_graphql n ""), (cursor, firstArg))

/-- Result of the structured posts fetch together with instrumentation: the
number of page requests issued and the paginated requests with their cursor
and first arguments. -/
structure GqlPostsResult where
  posts : List InstagramPost
  pageFetches : Nat
  pagedRequests : List (String × Nat)
deriving Repr, DecidableEq

/-- First-page post list of _scrape_posts_graphql (scraper.py lines 249-257):
the edge walk over media_edges[:max_posts], parsing each node and skipping the
dropped ones. -/
def graphql_first_posts (username : String) (max_posts : Nat)
    (r : GqlFirstResp) : List InstagramPost :=
  (r.edges.take max_posts).filterMap (fun n => parse_post_from_graphql n username)

/-- Body of _scrape_posts_graphql after a successful first fetch (scraper.py
lines 240-275), under the minimal re-indent repair described at
scrape_posts_graphql: a response without a user object yields the empty list
without raising; otherwise at most max_posts edges are parsed and, when fewer
than max_posts posts were parsed and the first response flags a next page,
exactly one paginated request carrying the end cursor of the first response is
issued and its posts are appended. This part of the method raises nothing. -/
def scrape_posts_graphql_ok (env : GqlEnv) (username : String) (max_posts : Nat)
    (r : GqlFirstResp) : GqlPostsResult :=
  if !r.userFound then ⟨[], 1, []⟩
  else
    let posts := graphql_first_posts username max_posts r
    if posts.length < max_posts ∧ r.hasNext then
      let pr := fetch_paginated_posts env r.endCursor (max_posts - posts.length)
      ⟨posts ++ pr.1, 2, [pr.2]⟩
    else ⟨posts, 1, []⟩

/-- Model of InstagramScraper._scrape_posts_graphql (scraper.py lines
201-282). The source text of this method is unparseable as written: the try at
line 227 is indented under no open block after posts = [] at line 224, a
module-fatal IndentationError, so importing src/scraper.py fails. This
definition embeds the minimal repair that re-indents the try to statement
level, matching the operation the spec describes; claims decided by this
method are settled as code bugs. Behavior of the repaired text: a failing
first fetch — request error, non-200 status or JSON decode failure — re-raises
to the caller; a successful one is handled by scrape_posts_graphql_ok. -/
def scrape_posts_graphql (env : GqlEnv) (username : String) (max_posts : Nat) :
    Except String GqlPostsResult :=
  match env.first with
  | .error e => .error e
  | .ok r => .ok (scrape_posts_graphql_ok env username max_posts r)

/-- Number of scroll-to-bottom iterations of the browser fallback (scraper.py
line 427): floor division of max_posts by 12, plus one. -/
def scrolls_needed (max_posts : Nat) : Nat := max_posts / 12 + 1

/-- Outcome-level model of InstagramScraper._scrape_posts_browser (scraper.py
lines 401-491): the broad try block inside the browser session catches any
failure raised after collection started, so the posts collected up to that
point are returned as they are; the coroutine itself raises only when entering
the browser session fails before the try block is reached. -/
def scrape_posts_browser (sessionFails : Bool) (collected : List InstagramPost)
    (innerFailure : Option String) : Except String (List InstagramPost) :=
  if sessionFails then .error "browser session failed"
  else
    match innerFailure with
    | some _ => .ok collected
    | none => .ok collected

/-- Translation of InstagramScraper._scrape_posts (scraper.py lines 173-199):
try the structured strategy; on any failure run the browser fallback; a
failure of the fallback call itself is caught and the posts collected so far,
still the initial empty list, are returned. -/
def scrape_posts (gq : Except String GqlPostsResult)
    (browser : Except String (List InstagramPost)) : List InstagramPost :=
  match gq with
  | .ok r => r.posts
  | .error _ =>
    match browser with
    | .ok ps => ps
    | .error _ => []

/-- First-page response of the per-post comment fetch as read by
_scrape_post_comments (scraper.py lines 606-626). -/
structure CommentFirstResp where
  edges : List RawCommentNode
  hasNext : Bool
  endCursor : String
deriving Repr, DecidableEq

/-- Environment of one post comment enrichment: the first-page outcome, where
Except.error covers a non-200 status as well as a raised exception (both paths
return the post unchanged), and the paginated fetch keyed by cursor. -/
structure CommentEnv where
  first : Except String CommentFirstResp
  paged : String → Except String (List RawCommentNode)

/-- Model of InstagramScraper._fetch_paginated_comments (scraper.py lines
647-696). The source text is unparseable as written: the try at line 676 is
indented under no open block, a module-fatal IndentationError; this definition
embeds the minimal re-indent repair. Behavior of the repaired text: one
request; a failure is caught inside and yields the empty list. -/
def fetch_paginated_comments (env : CommentEnv) (cursor : String) :
    List InstagramComment :=
  match env.paged cursor with
  | .error _ => []
  | .ok edges => edges.filterMap parse_comment_from_graphql

/-- Model of InstagramScraper._scrape_post_comments (scraper.py lines
568-645). The source text is unparseable as written: the try at line 598 is
indented under no open block after comments = [] at line 595, a module-fatal
IndentationError; this definition embeds the minimal re-indent repair,
matching the enrichment the spec describes, and claims decided by this method
are settled as code bugs. Behavior of the repaired text: a failed or non-200
first fetch returns the input post unchanged (the comments assignment at line
634 is never reached); otherwise the comment edges are parsed, extended by at
most one paginated fetch, and the post is returned with its comments field
set. The function never raises. -/
def scrape_post_comments (env : CommentEnv) (post : InstagramPost)
    (max_comments : Nat) : InstagramPost :=
  match env.first with
  | .error _ => post
  | .ok page =>
    let comments := page.edges.filterMap parse_comment_from_graphql
    let comments :=
      if comments.length < max_comments ∧ page.hasNext then
        comments ++ fetch_paginated_comments env page.endCursor
      else comments
    { post with comments := comments }

/-- Task list built at scraper.py lines 546-549: one comment-enrichment task
per post, in post order; each task resolves to a post outcome, and since
scrape_post_comments is total every outcome is Except.ok. -/
def comment_tasks (env : String → CommentEnv) (max_comments : Nat)
    (posts : List InstagramPost) : List (Except String InstagramPost) :=
  posts.map fun p => .ok (scrape_post_comments (env p.shortcode) p max_comments)

/-- Wave processing at scraper.py lines 552-556: outcomes are gathered in
chunks of three and concatenated in task order. -/
def gather_in_waves : List (Except String InstagramPost) →
    List (Except String InstagramPost)
  | [] => []
  | [a] => [a]
  | [a, b] => [a, b]
  | a :: b :: c :: rest => a :: b :: c :: gather_in_waves rest

/-- Error filter at the end of _scrape_comments_batch (scraper.py lines
558-566): exception outcomes are logged and dropped, post outcomes (always
truthy) are kept in order. -/
def filter_comment_results (results : List (Except String InstagramPost)) :
    List InstagramPost :=
  results.filterMap fun r =>
    match r with
    | .error _ => none
    | .ok p => some p

/-- Translation of InstagramScraper._scrape_comments_batch (scraper.py lines
537-566). -/
def scrape_comments_batch (env : String → CommentEnv)
    (posts : List InstagramPost) (max_comments : Nat) : List InstagramPost :=
  filter_comment_results (gather_in_waves (comment_tasks env max_comments posts))

/-- Raw user object of the profile response: the keys _scrape_profile reads
(scraper.py lines 145-161), each optional to mirror .get defaults. -/
structure RawProfileUser where
  username : Option String
  full_name : Option String
  biography : Option String
  external_url : Option String
  follower_count : Option Int
  following_count : Option Int
  post_count : Option Int
  is_verified : Option Bool
  is_private : Option Bool
  is_business_account : Option Bool
  category_name : Option String
  profile_pic_url : Option String
  profile_pic_url_hd : Option String
deriving Repr, DecidableEq

/-- Profile fetch response: HTTP status plus the decoded user object. -/
structure ProfileResp where
  status : Nat
  user : RawProfileUser
deriving Repr, DecidableEq

/-- One attempt of InstagramScraper._scrape_profile (scraper.py lines 101-171)
without the retry decorator. This method parses as written, and its try block
at line 133 is indented under the if not proxy: statement at line 129, so the
fetch and the 429/401 status checks run only when no proxy was acquired; with
a proxy acquired the method body ends and Python returns None. Result .ok none
models that fall-through, .ok (some profile) a parsed response — the
InstagramProfile constructor call matches the schema and succeeds — and
.error a raised exception (status 429 and 401 raise generic exceptions with
the literal messages of the source; Except.error input models the request or
json.loads raising). -/
def scrape_profile_once (proxyAcquired : Bool)
    (resp : Except String ProfileResp) (username : String) :
    Except String (Option InstagramProfile) :=
  if proxyAcquired then .ok none
  else
    match resp with
    | .error e => .error e
    | .ok r =>
      if r.status = 429 then .error "Rate limited by Instagram - need to wait"
      else if r.status = 401 then .error "Unauthorized - login session required"
      else
        .ok (some {
          username := r.user.username.getD username
          full_name := r.user.full_name.getD ""
          biography := r.user.biography.getD ""
          external_url := r.user.external_url
          follower_count := r.user.follower_count.getD 0
          following_count := r.user.following_count.getD 0
          post_count := r.user.post_count.getD 0
          is_verified := r.user.is_verified.getD false
          is_private := r.user.is_private.getD false
          is_business := r.user.is_business_account.getD false
          category := r.user.category_name
          profile_pic_url := r.user.profile_pic_url.getD ""
          profile_pic_url_hd := r.user.profile_pic_url_hd })

/-- Modelled from the spec: retry_with_backoff is imported from shared/utils,
which is not part of src/. Spec section 4.2 describes it as an
exponential-backoff retry of the wrapped operation with a fixed maximum
attempt count of 3, the delay multiplying by a constant factor each attempt.
The decorator call site passes no error filter, so every failure of the
wrapped operation is retried until the attempts are exhausted. The helper runs
attempt numbers k, k+1, ... while n attempts remain and returns the final
outcome together with the number of the attempt that produced it. -/
def retry_attempts (op : Nat → Except String α) : Nat → Nat → Except String α × Nat
  | 0, k => (.error "retries exhausted", k)
  | 1, k => (op k, k)
  | n + 2, k =>
    match op k with
    | .ok a => (.ok a, k)
    | .error _ => retry_attempts op (n + 1) (k + 1)

/-- Modelled from the spec: the retry_with_backoff decorator with
max_retries = 3 as applied to the profile fetch (scraper.py line 101),
returning the final outcome and the number of attempts consumed. -/
def retry_with_backoff (maxRetries : Nat) (op : Nat → Except String α) :
    Except String α × Nat :=
  retry_attempts op maxRetries 1

/-- The decorated profile fetch: scrape_profile_once wrapped in the
spec-modelled retry, the environment giving each attempt its proxy outcome and
response; with a proxy acquired every attempt returns None without touching
the network response. -/
def scrape_profile (proxyAcquired : Bool)
    (resp : Nat → Except String ProfileResp) (username : String) :
    Except String (Option InstagramProfile) × Nat :=
  retry_with_backoff 3 (fun k => scrape_profile_once proxyAcquired (resp k) username)

/-- Translation of InstagramScraperInput.validate_scrape_type (schema.py lines
62-67). -/
def validate_scrape_type (v : String) : Bool :=
  ["profile", "posts", "reels", "hashtag", "location"].contains v

/-- Item of the top-level result list: a profile record or a post record. -/
inductive ScrapeItem
  | profileItem (p : InstagramProfile)
  | postItem (p : InstagramPost)
deriving Repr, DecidableEq

/-- Environment bundling every network outcome the top-level scrape consumes. -/
structure ScrapeEnv where
  proxyAcquired : Bool
  profileResp : Nat → Except String ProfileResp
  gql : GqlEnv
  browserSessionFails : Bool
  browserCollected : List InstagramPost
  browserInnerFailure : Option String
  commentEnv : String → CommentEnv

/-- Translation of InstagramScraper.scrape (scraper.py lines 55-92),
instrumented with the number of profile or post fetch operations started: the
dispatch has branches only for profile and for posts or reels; any other
validated scrape_type leaves the initial empty result list untouched and
issues no fetch. In the profile branch, a None profile (the with-proxy
fall-through of _scrape_profile) makes profile.model_dump() at line 72 raise
an uncaught AttributeError. -/
def scrape (env : ScrapeEnv) (scrape_type : String) (username : Option String)
    (urls : Option (List String)) (max_posts : Nat) (include_comments : Bool)
    (max_comments_per_post : Nat) : Except String (List ScrapeItem) × Nat :=
  let uname := (resolve_username username urls).getD ""
  if scrape_type = "profile" then
    let r := scrape_profile env.proxyAcquired env.profileResp uname
    (match r.1 with
      | .error e => .error e
      | .ok (some p) => .ok [ScrapeItem.profileItem p]
      | .ok none => .error "AttributeError: NoneType has no attribute model_dump",
      1)
  else if scrape_type = "posts" ∨ scrape_type = "reels" then
    let gqlRes := scrape_posts_graphql env.gql uname max_posts
    let posts := scrape_posts gqlRes
      (scrape_posts_browser env.browserSessionFails env.browserCollected
        env.browserInnerFailure)
    let posts :=
      if include_comments then
        scrape_comments_batch env.commentEnv posts max_comments_per_post
      else posts
    (.ok (posts.map ScrapeItem.postItem), 1)
  else (.ok [], 0)

/-- Simple parseable image node used by the concrete pagination scenarios. -/
def mkNode (s : String) : RawPostNode :=
  ⟨some s, none, [], [], some "https://img", none, none, none, none, none, none,
    none, none⟩

/-- Simple post used by the concrete enrichment scenarios. -/
def mkPost (s : String) : InstagramPost :=
  { shortcode := s, type := "image", timestamp := "", likes := 0,
    comments_count := 0 }

/-- Two-page environment of the spec pagination scenario: page one has ten
parseable items and flags a next page with cursor A1; the paginated fetch
answers five items with no further page. -/
def gqlEnvTwoPages : GqlEnv where
  first := .ok ⟨true, (List.range 10).map (fun i => mkNode (toString i)), true,
    "A1", "uid"⟩
  paged := fun _ _ =>
    .ok ⟨(List.range 5).map (fun i => mkNode (toString i)), false, ""⟩

/-- Three-page environment: page one has ten items and cursor CUR1; the fetch
at CUR1 answers ten items and flags a further page at CUR2; the fetch at CUR2
would answer five final items. -/
def gqlEnvThreePages : GqlEnv where
  first := .ok ⟨true, (List.range 10).map (fun i => mkNode (toString i)), true,
    "CUR1", "uid"⟩
  paged := fun cursor _ =>
    if cursor = "CUR1" then
      .ok ⟨(List.range 10).map (fun i => mkNode (toString i)), true, "CUR2"⟩
    else .ok ⟨(List.range 5).map (fun i => mkNode (toString i)), false, ""⟩

/-- Environment whose paginated response carries more nodes than requested:
page one has three items, the paginated fetch answers ten. -/
def gqlEnvOverfull : GqlEnv where
  first := .ok ⟨true, (List.range 3).map (fun i => mkNode (toString i)), true,
    "B1", "uid"⟩
  paged := fun _ _ =>
    .ok ⟨(List.range 10).map (fun i => mkNode (toString i)), false, ""⟩

/-- The seven posts of the spec enrichment scenario. -/
def exPosts : List InstagramPost :=
  [mkPost "p1", mkPost "p2", mkPost "p3", mkPost "p4", mkPost "p5", mkPost "p6",
    mkPost "p7"]

/-- Comment environment whose fetch raises for post p4 and answers every other
post with a single comment. -/
def exCommentEnv : String → CommentEnv := fun s =>
  if s = "p4" then ⟨.error "boom", fun _ => .error "boom"⟩
  else
    ⟨.ok ⟨[⟨some ("c-" ++ s), some "hi", some "a", some 1, some 0⟩], false, ""⟩,
      fun _ => .error "no more"⟩

/-- Video-typed node carrying view count 42 but no is_video key and no media
URL keys. -/
def c7Node : RawPostNode :=
  ⟨some "abc", some "GraphVideo", [], [], none, none, none, none, none, none,
    none, some 42, none⟩

/-- Video-typed node with the is_video flag set, view count 42 and a display
URL. -/
def c7GoodNode : RawPostNode :=
  ⟨some "abc", some "GraphVideo", [], [], some "https://v", none, none, none,
    none, none, some true, some 42, none⟩

/-- Carousel node used by the renormalization evaluation. -/
def c9Node : RawPostNode :=
  ⟨some "xyz", some "GraphSidecar", ["cap"], [⟨some "u1", none⟩, ⟨none, some "u2"⟩],
    none, none, some 0, some 7, some 3, some 99, some false, none, some "owner"⟩

/-- Raw profile user object with every key absent. -/
def emptyRawUser : RawProfileUser :=
  ⟨none, none, none, none, none, none, none, none, none, none, none, none, none⟩

/-- Concrete scrape environment for the dispatch witness. -/
def exScrapeEnv : ScrapeEnv where
  proxyAcquired := false
  profileResp := fun _ => .error "net down"
  gql := gqlEnvTwoPages
  browserSessionFails := false
  browserCollected := []
  browserInnerFailure := none
  commentEnv := exCommentEnv

/-- Wave gathering concatenates the chunk outcomes in task order, so it is the
identity on the outcome list. -/
theorem gather_in_waves_eq :
    ∀ l : List (Except String InstagramPost), gather_in_waves l = l
  | [] => rfl
  | [_] => rfl
  | [_, _] => rfl
  | _ :: _ :: _ :: rest => by
    simp only [gather_in_waves, gather_in_waves_eq rest]

/-- Filtering the always-successful task outcomes keeps every post, enriched
in order. -/
theorem filter_comment_tasks (env : String → CommentEnv) (maxc : Nat) :
    ∀ posts : List InstagramPost,
      filter_comment_results (comment_tasks env maxc posts) =
        posts.map (fun p => scrape_post_comments (env p.shortcode) p maxc)
  | [] => rfl
  | p :: ps => by
    have ih := filter_comment_tasks env maxc ps
    simp only [comment_tasks, List.map_cons, filter_comment_results,
      List.filterMap_cons] at ih ⊢
    rw [ih]

/-- C1: when the structured strategy raises, the fallback executes and its
output — possibly the empty list — is the final result; a failure inside the
fallback still returns the posts it had collected, a failure to even start the
browser session is caught and leaves the initial empty list, and scrape_posts
is a total function, so no exception reaches the caller. -/
theorem c1_fallback_on_structured_failure (e : String) (sessionFails : Bool)
    (collected : List InstagramPost) (innerFailure : Option String) :
    scrape_posts (Except.error e)
        (scrape_posts_browser sessionFails collected innerFailure) =
      (if sessionFails then [] else collected) := by
  cases sessionFails <;> cases innerFailure <;>
    simp [scrape_posts, scrape_posts_browser]

/-- C2: over the re-indent-repaired model of the unparseable enrichment
functions, comment enrichment returns exactly one post per input post, in
order, each enriched independently of the others, and a post whose comment
fetch fails is returned unchanged — keeping the comments it already had —
rather than removed from the result. -/
theorem c2_comment_failure_keeps_posts (env : String → CommentEnv)
    (posts : List InstagramPost) (maxc : Nat) :
    scrape_comments_batch env posts maxc =
        posts.map (fun p => scrape_post_comments (env p.shortcode) p maxc) ∧
      (scrape_comments_batch env posts maxc).length = posts.length ∧
      ∀ p : InstagramPost, ∀ e : String,
        (env p.shortcode).first = Except.error e →
          scrape_post_comments (env p.shortcode) p maxc = p := by
  have hmain : scrape_comments_batch env posts maxc =
      posts.map (fun p => scrape_post_comments (env p.shortcode) p maxc) := by
    unfold scrape_comments_batch
    rw [gather_in_waves_eq, filter_comment_tasks]
  refine ⟨hmain, ?_, ?_⟩
  · rw [hmain, List.length_map]
  · intro p e he
    unfold scrape_post_comments
    rw [he]

/-- Witness for C2 at the concrete seven-post scenario: the batch over seven
posts where the fetch for p4 raises still has seven entries, and p4 comes back
unchanged with its zero comments. -/
theorem c2_comment_failure_keeps_posts_witness :
    (scrape_comments_batch exCommentEnv exPosts 5).length = 7 ∧
      scrape_post_comments (exCommentEnv "p4") (mkPost "p4") 5 = mkPost "p4" :=
  ⟨((c2_comment_failure_keeps_posts exCommentEnv exPosts 5).2.1).trans rfl,
    (c2_comment_failure_keeps_posts exCommentEnv exPosts 5).2.2 (mkPost "p4")
      "boom" rfl⟩


/-- The always-raising InstagramPost constructor makes the node normalizer
drop every node. -/
theorem parse_post_from_graphql_none (node : RawPostNode) (u : String) :
    parse_post_from_graphql node u = none := by
  unfold parse_post_from_graphql
  cases h : parse_post_kwargs node u <;> rfl

/-- The always-raising InstagramComment constructor makes the comment
normalizer drop every node. -/
theorem parse_comment_from_graphql_none (node : RawCommentNode) :
    parse_comment_from_graphql node = none := by
  simp [parse_comment_from_graphql, instagram_comment_validate]

/-- Certificate of the schema mismatch behind the always-raising post
constructor: the schema requires a field named type and the construction site
never passes that name. -/
theorem instagram_post_type_field_missing :
    instagram_post_required_fields.contains "type" = true ∧
      instagram_post_ctor_kwarg_names.contains "type" = false := by
  exact ⟨rfl, rfl⟩

/-- C3: evaluation of the re-indent-repaired structured fetch at the spec
two-page scenario with max 8 and at a three-page scenario with max 25. The
always-raising InstagramPost constructor drops every node, so max 8 returns 0
items, not 8, and — because 0 is less than 8 — still issues a second page
fetch asking for 8 items; over three pages the run stops after two fetches and
the page_info of the follow-up response is never read, so no request ever
carries the second cursor CUR2. -/
theorem c3_code_bug_eval :
    (scrape_posts_graphql gqlEnvTwoPages "u" 8).toOption.map
        (fun r => (r.posts.length, r.pageFetches, r.pagedRequests)) =
      some (0, 2, [("A1", 8)]) ∧
      (scrape_posts_graphql gqlEnvThreePages "u" 25).toOption.map
          (fun r => (r.posts.length, r.pageFetches, r.pagedRequests)) =
        some (0, 2, [("CUR1", 25)]) := by
  exact ⟨rfl, rfl⟩

/-- C4: evaluation of the re-indent-repaired structured fetch at the over-full
environment with max 5: the constructor drops every node, so the call returns
0 posts — no invocation ever returns a Post record, and the claimed bound is
never exercised by the program. -/
theorem c4_code_bug_eval :
    (scrape_posts_graphql gqlEnvOverfull "u" 5).toOption.map
        (fun r => (r.posts.length, r.pageFetches)) = some (0, 2) ∧
      parse_post_from_graphql (mkNode "0") "u" = none :=
  ⟨rfl, parse_post_from_graphql_none (mkNode "0") "u"⟩

/-- C5 counterexample: the resolver regex requires the literal host
instagram.com, so the spec URLs whose host is site resolve to the whole URL
rather than to natgeo. -/
theorem c5_counterexample :
    extract_username_from_url "https://site/natgeo/" = "https://site/natgeo/" ∧
      extract_username_from_url "https://site/natgeo/" ≠ "natgeo" ∧
      extract_username_from_url "https://site/natgeo/?hl=en" =
        "https://site/natgeo/?hl=en" := by
  refine ⟨?_, ?_, ?_⟩ <;> decide

/-- C5 amended: an explicit nonempty username always wins; with no explicit
username the first URL is searched for the literal instagram.com/ and the run
up to the next slash or question mark is captured, so the two spec URLs
resolve to natgeo only with the instagram.com host, while a URL without that
host resolves to the URL itself. -/
theorem c5_amended_resolver :
    resolve_username none (some ["https://www.instagram.com/natgeo/"]) =
        some "natgeo" ∧
      resolve_username none (some ["https://www.instagram.com/natgeo/?hl=en"]) =
        some "natgeo" ∧
      resolve_username (some "nasa") (some ["https://www.instagram.com/natgeo/"]) =
        some "nasa" ∧
      resolve_username none (some ["https://site/natgeo/"]) =
        some "https://site/natgeo/" := by
  refine ⟨?_, ?_, ?_, ?_⟩ <;> decide

/-- C6 counterexample: the 429/401 handling sits inside the if-not-proxy
branch. With no proxy acquired, a constant-401 response is retried by the
backoff policy — three attempts are consumed — instead of being surfaced
immediately; with a proxy acquired the response is never even inspected and
the decorated call returns None after one attempt, surfacing nothing. -/
theorem c6_counterexample :
    scrape_profile false (fun _ => Except.ok ⟨401, emptyRawUser⟩) "nasa" =
        (Except.error "Unauthorized - login session required", 3) ∧
      scrape_profile true (fun _ => Except.ok ⟨401, emptyRawUser⟩) "nasa" =
        (Except.ok none, 1) ∧
      (3 : Nat) ≠ 1 := by
  exact ⟨rfl, rfl, by omega⟩

/-- C6 amended: with a proxy acquired the fetch block is skipped for every
response environment and the decorated call returns None on the first attempt;
with no proxy acquired, HTTP 429 and HTTP 401 raise indistinguishable generic
errors through the same backoff wrapper and each is attempted three times
before its error surfaces — neither status is singled out. -/
theorem c6_amended_both_retried (user : RawProfileUser) (u : String)
    (resp : Nat → Except String ProfileResp) :
    scrape_profile false (fun _ => Except.ok ⟨429, user⟩) u =
        (Except.error "Rate limited by Instagram - need to wait", 3) ∧
      scrape_profile false (fun _ => Except.ok ⟨401, user⟩) u =
        (Except.error "Unauthorized - login session required", 3) ∧
      scrape_profile true resp u = (Except.ok none, 1) := by
  exact ⟨rfl, rfl, rfl⟩

/-- C7: the code produces no Post for any node. Even the video-typed node
with is_video set, view count 42 and a display URL is dropped — as is the one
without the is_video key — because the InstagramPost construction raises for
every input; the certificate conjuncts exhibit the required schema field type
missing from the construction kwargs. -/
theorem c7_code_bug_eval :
    parse_post_from_graphql c7GoodNode "u" = none ∧
      parse_post_from_graphql c7Node "u" = none ∧
      instagram_post_required_fields.contains "type" = true ∧
      instagram_post_ctor_kwarg_names.contains "type" = false :=
  ⟨parse_post_from_graphql_none c7GoodNode "u",
    parse_post_from_graphql_none c7Node "u",
    instagram_post_type_field_missing.1, instagram_post_type_field_missing.2⟩

/-- C8 counterexample: at max_posts 12 the fallback performs two scrolls while
the ceiling of 12 divided by 12 is one. -/
theorem c8_counterexample :
    scrolls_needed 12 = 2 ∧ (12 + 11) / 12 = 1 ∧
      scrolls_needed 12 ≠ (12 + 11) / 12 := by
  decide

/-- C8 amended: the fallback always performs floor(max_posts / 12) + 1
scroll-to-bottom iterations, which coincides with the ceiling of
max_posts / 12 exactly when 12 does not divide max_posts. -/
theorem c8_amended_scroll_count (m : Nat) :
    scrolls_needed m = m / 12 + 1 ∧
      (m % 12 ≠ 0 → scrolls_needed m = (m + 11) / 12) := by
  refine ⟨rfl, fun h => ?_⟩
  unfold scrolls_needed
  omega

/-- Witness for C8 amended at max_posts 5. -/
theorem c8_amended_scroll_count_witness :
    scrolls_needed 5 = 5 / 12 + 1 ∧
      (5 % 12 ≠ 0 → scrolls_needed 5 = (5 + 11) / 12) :=
  c8_amended_scroll_count 5

/-- C9: the normalizer yields no Post value: both runs on the identical node
return None, because the record construction raises and the node is dropped,
so there are no two Post values to compare; the mapping itself is
deterministic and the two dropped outcomes are equal. -/
theorem c9_code_bug_eval :
    parse_post_from_graphql c9Node "user" = none ∧
      parse_post_from_graphql c9Node "user" =
        parse_post_from_graphql c9Node "user" :=
  ⟨parse_post_from_graphql_none c9Node "user", rfl⟩

/-- C10: hashtag and location pass input validation but have no dispatch
branch in scrape, so the top-level call returns the untouched empty result
list without raising and issues no profile or post fetch. -/
theorem c10_unhandled_types_empty (env : ScrapeEnv) (st : String)
    (username : Option String) (urls : Option (List String)) (maxp : Nat)
    (inc : Bool) (maxc : Nat) (h : st = "hashtag" ∨ st = "location") :
    validate_scrape_type st = true ∧
      scrape env st username urls maxp inc maxc = (Except.ok [], 0) := by
  rcases h with h | h <;> subst h <;> exact ⟨rfl, rfl⟩

/-- Witness for C10 at the hashtag scrape type with a concrete environment. -/
theorem c10_unhandled_types_empty_witness :
    validate_scrape_type "hashtag" = true ∧
      scrape exScrapeEnv "hashtag" none (some ["https://www.instagram.com/nasa/"])
          5 false 5 =
        (Except.ok [], 0) :=
  c10_unhandled_types_empty exScrapeEnv "hashtag" none
    (some ["https://www.instagram.com/nasa/"]) 5 false 5 (Or.inl rfl)
